import Mathlib

/-!
Verification of the icarus log-event translation and lifecycle-orchestration
bridge (src/src-tauri/src/lib.rs), shallowly embedded in Lean.

Structured log records (serde_json values) are modelled by an inductive `Json`
type; the event classifier `emit_logs`, the point-slot extractor
`slot_from_point`, the peer table `peers_for_network`, the storage-clearing
command `clear_dbs` and the orchestration sequence of `launch_amaru` are
translated definition-for-definition from the Rust source.  A Rust `panic`
(an `unwrap` of `None`) is modelled by the `Except.error` branch of the
classifier; fallible filesystem state is modelled by explicit record state.
-/

/-- A serde_json value.  Numbers are modelled by integers: the only numeric
accessor the source uses is `as_u64`, which yields a value exactly for
non-negative integers below 2^64 (it yields nothing for floats, which are
therefore indistinguishable, for our purposes, from any other non-u64 value). -/
inductive Json where
  | null : Json
  | bool (b : Bool) : Json
  | num (n : Int) : Json
  | str (s : String) : Json
  | arr (elems : List Json) : Json
  | obj (fields : List (String × Json)) : Json

/-- Lookup of a key in a serde_json object map (keys are unique in serde maps;
we return the first match). -/
def lookupField : List (String × Json) → String → Option Json
  | [], _ => none
  | (k, v) :: rest, key => if k = key then some v else lookupField rest key

/-- `serde_json::Value::get(key)`: field of an object, `None` otherwise. -/
def Json.get (j : Json) (key : String) : Option Json :=
  match j with
  | .obj fields => lookupField fields key
  | _ => none

/-- `serde_json::Value::as_str`. -/
def Json.as_str : Json → Option String
  | .str s => some s
  | _ => none

/-- `serde_json::Value::as_u64`. -/
def Json.as_u64 : Json → Option Nat
  | .num n => if 0 ≤ n ∧ n < (2 : Int) ^ 64 then some n.toNat else none
  | _ => none

/-- `serde_json::Value::as_object`, returning the field list. -/
def Json.as_object : Json → Option (List (String × Json))
  | .obj fields => some fields
  | _ => none

/-- One digit of a decimal numeral. -/
def digitVal (c : Char) : Option Nat :=
  if c.isDigit then some (c.toNat - 48) else none

/-- Accumulating decimal parse over a character list; fails on any non-digit. -/
def parseDigitsAux : List Char → Nat → Option Nat
  | [], acc => some acc
  | c :: cs, acc =>
    match digitVal c with
    | some d => parseDigitsAux cs (acc * 10 + d)
    | none => none

/-- Rust `str::parse::<u64>()`: an optional leading plus sign, then one or
more decimal digits, value below 2^64; anything else fails. -/
def parseU64 (s : String) : Option Nat :=
  let cs := if s.toList.head? = some '+' then s.toList.tail else s.toList
  if cs = [] then none
  else
    match parseDigitsAux cs 0 with
    | some n => if n < 2 ^ 64 then some n else none
    | none => none

/-- `BootstrapEvent` from lib.rs (the source spells the first variant
`DownloadingShapshot`). -/
inductive BootstrapEvent where
  | DownloadingShapshot (epoch : Nat) : BootstrapEvent
  | SnapshotsDownloaded : BootstrapEvent
  | ImportingSnapshots : BootstrapEvent
  | ImportingSnapshot (snapshot : String) : BootstrapEvent
  | ImportedSnapshot (epoch : Nat) : BootstrapEvent
  | ImportedSnapshots : BootstrapEvent
deriving DecidableEq

/-- `RuntimeEvent` from lib.rs. -/
inductive RuntimeEvent where
  | Starting (tip : Nat) : RuntimeEvent
  | CreatingState : RuntimeEvent
  | EpochTransition (fromEpoch intoEpoch : Nat) : RuntimeEvent
  | TipCaughtUp (slot : Nat) : RuntimeEvent
  | TipSyncing (slot : Nat) : RuntimeEvent
deriving DecidableEq

/-- `AppEvent` from lib.rs. -/
inductive AppEvent where
  | Bootstrap (ev : BootstrapEvent) : AppEvent
  | Runtime (ev : RuntimeEvent) : AppEvent
deriving DecidableEq

/-- `slot_from_point` from lib.rs: read `field` as a string, take the piece
before the first dot (Rust `split(".").next()`, i.e. the longest prefix free
of dots), parse it as a u64, defaulting to 0 at every failure point. -/
def slot_from_point (line : Json) (field : String) : Nat :=
  ((((line.get field).getD Json.null).as_str).bind
    (fun s => parseU64 (String.mk (s.toList.takeWhile (fun c => c ≠ '.'))))).getD 0

/-- The `name` extraction at the top of `emit_logs`:
`line.get("name").unwrap_or_default().as_str().unwrap_or_default()`. -/
def recordName (line : Json) : String :=
  (((line.get "name").getD Json.null).as_str).getD ""

/-- The `epoch` extraction used by the `"Downloading snapshot"` and
`"Imported snapshot"` arms: read `epoch` as a string (empty if absent or not
a string), parse as an unsigned integer, default 0. -/
def epochOfLine (line : Json) : Nat :=
  (parseU64 ((((line.get "epoch").getD Json.null).as_str).getD "")).getD 0

/-- The `match name` expression of `emit_logs`, producing at most one event.
The `"starting"` arm calls `.as_object().unwrap()` on the `tip` value in the
source; that `unwrap` panics when `tip` is absent or not an object, which we
model by the `Except.error` branch. -/
def classifyNamed (name : String) (line : Json) : Except String (Option AppEvent) :=
  if name = "Downloading snapshot" then
    .ok (some (.Bootstrap (.DownloadingShapshot (epochOfLine line))))
  else if name = "All snapshots downloaded and decompressed successfully" then
    .ok (some (.Bootstrap .SnapshotsDownloaded))
  else if name = "Importing snapshots" then
    .ok (some (.Bootstrap .ImportingSnapshots))
  else if name = "Importing snapshot" then
    let snapshot := ((line.get "snapshot").bind Json.as_str).getD ""
    .ok (some (.Bootstrap (.ImportingSnapshot snapshot)))
  else if name = "Imported snapshot" then
    .ok (some (.Bootstrap (.ImportedSnapshot (epochOfLine line))))
  else if name = "Imported snapshots" then
    .ok (some (.Bootstrap .ImportedSnapshots))
  else if name = "starting" then
    match ((line.get "tip").getD Json.null).as_object with
    | none => .error "called Option::unwrap on a None value"
    | some tipObj =>
      let tip := (((lookupField tipObj "slot").getD Json.null).as_u64).getD 0
      .ok (some (.Runtime (.Starting tip)))
  else if name = "new.known_snapshots" then
    .ok (some (.Runtime .CreatingState))
  else if name = "epoch_transition" then
    let fromEpoch := (((line.get "from").getD Json.null).as_u64).getD 0
    let intoEpoch := (((line.get "into").getD Json.null).as_u64).getD 0
    .ok (some (.Runtime (.EpochTransition fromEpoch intoEpoch)))
  else if name = "track_peers.caught_up.new_tip" then
    .ok (some (.Runtime (.TipCaughtUp (slot_from_point line "point"))))
  else if name = "track_peers.syncing.new_tip" then
    .ok (some (.Runtime (.TipSyncing (slot_from_point line "point"))))
  else
    .ok none

/-- The classification performed by `emit_logs` on one record. -/
def classify (line : Json) : Except String (Option AppEvent) :=
  classifyNamed (recordName line) line

/-- Serde serialization of a `BootstrapEvent` (internally tagged, tag
`kind`, variants renamed to snake case). -/
def serializeBootstrap : BootstrapEvent → List (String × Json)
  | .DownloadingShapshot epoch =>
    [("kind", Json.str "downloading_snapshot"), ("epoch", Json.num (Int.ofNat epoch))]
  | .SnapshotsDownloaded => [("kind", Json.str "snapshots_downloaded")]
  | .ImportingSnapshots => [("kind", Json.str "importing_snapshots")]
  | .ImportingSnapshot snapshot =>
    [("kind", Json.str "importing_snapshot"), ("snapshot", Json.str snapshot)]
  | .ImportedSnapshot epoch =>
    [("kind", Json.str "imported_snapshot"), ("epoch", Json.num (Int.ofNat epoch))]
  | .ImportedSnapshots => [("kind", Json.str "imported_snapshots")]

/-- Serde serialization of a `RuntimeEvent` (internally tagged, tag `kind`,
variants renamed to snake case). -/
def serializeRuntime : RuntimeEvent → List (String × Json)
  | .Starting tip => [("kind", Json.str "starting"), ("tip", Json.num (Int.ofNat tip))]
  | .CreatingState => [("kind", Json.str "creating_state")]
  | .EpochTransition fromEpoch intoEpoch =>
    [("kind", Json.str "epoch_transition"), ("from", Json.num (Int.ofNat fromEpoch)),
      ("into", Json.num (Int.ofNat intoEpoch))]
  | .TipCaughtUp slot => [("kind", Json.str "tip_caught_up"), ("slot", Json.num (Int.ofNat slot))]
  | .TipSyncing slot => [("kind", Json.str "tip_syncing"), ("slot", Json.num (Int.ofNat slot))]

/-- Serde serialization of an `AppEvent` (adjacently tagged: tag `type`,
content `payload`; variants renamed `bootstrap` and `runtime`). -/
def serializeAppEvent : AppEvent → Json
  | .Bootstrap ev => Json.obj [("type", Json.str "bootstrap"), ("payload", Json.obj (serializeBootstrap ev))]
  | .Runtime ev => Json.obj [("type", Json.str "runtime"), ("payload", Json.obj (serializeRuntime ev))]

/-- `emit_logs` from lib.rs, as the list of `(channel, payload)` emissions it
performs on one record: one emission on channel `"amaru"` when a record is
classified, none when the record is unrecognized, and the modelled panic
propagated from the classifier. -/
def emit_logs (line : Json) : Except String (List (String × Json)) :=
  match classify line with
  | .error e => .error e
  | .ok none => .ok []
  | .ok (some event) => .ok [("amaru", serializeAppEvent event)]

/-- The eleven record names recognized by `emit_logs`. -/
def recognizedNames : List String :=
  ["Downloading snapshot",
   "All snapshots downloaded and decompressed successfully",
   "Importing snapshots",
   "Importing snapshot",
   "Imported snapshot",
   "Imported snapshots",
   "starting",
   "new.known_snapshots",
   "epoch_transition",
   "track_peers.caught_up.new_tip",
   "track_peers.syncing.new_tip"]

/-- `NetworkName` from amaru_kernel: the three named networks matched by
`peers_for_network`, plus the remaining identities (testnets with a magic
number) covered by the wildcard arm. -/
inductive NetworkName where
  | Mainnet : NetworkName
  | Preprod : NetworkName
  | Preview : NetworkName
  | Testnet (magic : Nat) : NetworkName
deriving DecidableEq

/-- `peers_for_network` from lib.rs. -/
def peers_for_network : NetworkName → List String
  | .Mainnet => ["relays.cardano-mainnet.iohk.io:3001"]
  | .Preprod => ["preprod-node.play.dev.cardano.org:3001"]
  | .Preview =>
    ["preview-node.play.dev.cardano.org:3001", "relays.cardano-preview.iohkdev.io:3001"]
  | _ => []

/-- Existence of the two storage directories (`ledger.db`, `chain.db`). -/
structure DbState where
  ledgerExists : Bool
  chainExists : Bool
deriving DecidableEq

/-- `clear_dbs` from lib.rs, over directory-existence state (directory
removal is modelled as succeeding).  The source removes the ledger directory
when it exists, then tests `ledger_dir.exists()` — not the chain directory —
before removing the chain directory. -/
def clear_dbs (s : DbState) : Except String DbState :=
  let s1 := if s.ledgerExists then { s with ledgerExists := false } else s
  let s2 := if s1.ledgerExists then { s1 with chainExists := false } else s1
  .ok s2

/-- One observable step of the orchestration task spawned by `launch_amaru`. -/
inductive OrchAction where
  | invokeBootstrap : OrchAction
  | buildConfig (upstreamPeers : List String) (migrateChainDb : Bool) : OrchAction
  | startEngine : OrchAction
  | engineJoin : OrchAction
  | logError : OrchAction
deriving DecidableEq

/-- Number of bootstrap invocations in an orchestration trace. -/
def countBootstrap : List OrchAction → Nat
  | [] => 0
  | .invokeBootstrap :: rest => countBootstrap rest + 1
  | _ :: rest => countBootstrap rest

/-- The engine phase of `launch_amaru`: build the `Config` (upstream peers
from `peers_for_network`, `migrate_chain_db: true`) and call
`build_and_run_network`; on `Ok` join the running engine, on `Err` print an
operational-log line. -/
def runEngine (network : NetworkName) (engineOk : Bool) : List OrchAction :=
  [.buildConfig (peers_for_network network) true, .startEngine] ++
    (if engineOk then [.engineJoin] else [.logError])

/-- The orchestration sequence of `launch_amaru` from lib.rs, as the trace of
actions the spawned task performs.  `ledgerExists` is whether the ledger
directory exists at start; `bootstrapOk` whether the `bootstrap` collaborator
succeeds; `engineOk` whether `build_and_run_network` succeeds.  A failing
bootstrap hits `.unwrap()`, which panics the task: the trace ends there. -/
def launch_amaru (ledgerExists bootstrapOk engineOk : Bool)
    (network : NetworkName) : List OrchAction :=
  if !ledgerExists then
    if bootstrapOk then .invokeBootstrap :: runEngine network engineOk
    else [.invokeBootstrap]
  else runEngine network engineOk

theorem classifyNamed_of_unrecognized (name : String) (line : Json)
    (h : name ∉ recognizedNames) : classifyNamed name line = .ok none := by
  simp only [recognizedNames, List.mem_cons, List.not_mem_nil, or_false, not_or] at h
  obtain ⟨h1, h2, h3, h4, h5, h6, h7, h8, h9, h10, h11⟩ := h
  simp [classifyNamed, h1, h2, h3, h4, h5, h6, h7, h8, h9, h10, h11]

theorem emit_logs_of_unrecognized (line : Json)
    (h : recordName line ∉ recognizedNames) :
    classify line = .ok none ∧ emit_logs line = .ok [] := by
  have hc : classify line = .ok none :=
    classifyNamed_of_unrecognized (recordName line) line h
  exact ⟨hc, by simp [emit_logs, hc]⟩

theorem countBootstrap_runEngine (n : NetworkName) (e : Bool) :
    countBootstrap (runEngine n e) = 0 := by
  cases e <;> rfl

theorem startEngine_mem_runEngine (n : NetworkName) (e : Bool) :
    OrchAction.startEngine ∈ runEngine n e := by
  cases e <;> exact List.Mem.tail _ (List.Mem.head _)

/-- C1: the claim says classification never errors or panics and that a
`"starting"` record with a missing or non-object `tip` yields `Starting` with
slot 0.  The code instead calls `.as_object().unwrap()` on the `tip` value:
evaluating the classifier at `{"name": "starting"}` (and at a non-object
`tip`) reaches the modelled panic, while an object `tip` without a `slot`
does default to 0. -/
theorem icarus_C1_starting_panics :
    classify (Json.obj [("name", Json.str "starting")]) =
      .error "called Option::unwrap on a None value" ∧
    classify (Json.obj [("name", Json.str "starting"), ("tip", Json.str "x")]) =
      .error "called Option::unwrap on a None value" ∧
    classify (Json.obj [("name", Json.str "starting"), ("tip", Json.obj [])]) =
      .ok (some (AppEvent.Runtime (RuntimeEvent.Starting 0))) :=
  ⟨rfl, rfl, rfl⟩

/-- C3: the claim says that after `clear_dbs` returns `Ok` neither storage
directory exists.  The code re-tests `ledger_dir.exists()` (instead of the
chain directory) before removing the chain directory, so the chain directory
is never removed: from any starting state, `clear_dbs` returns `Ok` with the
ledger directory gone and the chain directory exactly as it was. -/
theorem icarus_C3_chain_never_removed :
    clear_dbs ⟨true, true⟩ = .ok ⟨false, true⟩ ∧
    clear_dbs ⟨false, true⟩ = .ok ⟨false, true⟩ ∧
    ∀ s : DbState, clear_dbs s = .ok ⟨false, s.chainExists⟩ := by
  refine ⟨rfl, rfl, ?_⟩
  intro s
  cases s with
  | mk l c => cases l <;> rfl

/-- C9: peer resolution is a pure function of the network identity; each of
the three supported networks maps to a fixed non-empty host:port list, and
every other identity maps to the empty list. -/
theorem icarus_C9_peers_static :
    peers_for_network .Mainnet = ["relays.cardano-mainnet.iohk.io:3001"] ∧
    peers_for_network .Preprod = ["preprod-node.play.dev.cardano.org:3001"] ∧
    peers_for_network .Preview =
      ["preview-node.play.dev.cardano.org:3001", "relays.cardano-preview.iohkdev.io:3001"] ∧
    peers_for_network .Mainnet ≠ [] ∧
    peers_for_network .Preprod ≠ [] ∧
    peers_for_network .Preview ≠ [] ∧
    ∀ magic : Nat, peers_for_network (.Testnet magic) = [] :=
  ⟨rfl, rfl, rfl, List.cons_ne_nil _ _, List.cons_ne_nil _ _, List.cons_ne_nil _ _,
    fun _ => rfl⟩

/-- C4: bootstrap is invoked iff the ledger directory is absent at
orchestration start.  When the directory exists the trace contains zero
bootstrap invocations and does start the engine; when absent, bootstrap is
invoked exactly once, as the very first action, and (when it succeeds) the
trace continues with exactly the engine-start sequence of the present case. -/
theorem icarus_C4_bootstrap_iff_absent (b e : Bool) (n : NetworkName) :
    countBootstrap (launch_amaru true b e n) = 0 ∧
    OrchAction.startEngine ∈ launch_amaru true b e n ∧
    countBootstrap (launch_amaru false b e n) = 1 ∧
    (launch_amaru false b e n).head? = some OrchAction.invokeBootstrap ∧
    launch_amaru false true e n = OrchAction.invokeBootstrap :: launch_amaru true true e n := by
  refine ⟨countBootstrap_runEngine n e, startEngine_mem_runEngine n e, ?_, ?_, rfl⟩
  · cases b
    · rfl
    · show countBootstrap (runEngine n e) + 1 = 1
      rw [countBootstrap_runEngine]
  · cases b <;> rfl

/-- C5: when the ledger directory is absent and bootstrap fails, the
orchestration task ends immediately: its whole trace is the single failed
bootstrap invocation — no engine configuration is built and the engine start
operation is never invoked (hence no records, and no events, can arise from
this path). -/
theorem icarus_C5_bootstrap_failure_halts (e : Bool) (n : NetworkName) :
    launch_amaru false false e n = [OrchAction.invokeBootstrap] ∧
    (∀ ps mig, OrchAction.buildConfig ps mig ∉ launch_amaru false false e n) ∧
    OrchAction.startEngine ∉ launch_amaru false false e n := by
  refine ⟨rfl, ?_, ?_⟩
  · intro ps mig h
    simp [launch_amaru] at h
  · intro h
    simp [launch_amaru] at h

/-- C6: a record whose extracted `name` is not one of the eleven recognized
names classifies to no event and nothing is published (an empty emission
list, not an error). -/
theorem icarus_C6_unrecognized_dropped (line : Json)
    (h : recordName line ∉ recognizedNames) :
    classify line = .ok none ∧ emit_logs line = .ok [] :=
  emit_logs_of_unrecognized line h

theorem icarus_C6_witness :
    recordName (Json.obj [("name", Json.str "bogus")]) ∉ recognizedNames ∧
    classify (Json.obj [("name", Json.str "bogus")]) = .ok none ∧
    emit_logs (Json.obj [("name", Json.str "bogus")]) = .ok [] := by
  have h : recordName (Json.obj [("name", Json.str "bogus")]) ∉ recognizedNames := by
    decide
  exact ⟨h, icarus_C6_unrecognized_dropped _ h⟩

/-- C10: when the `name` key is absent, or present with a non-string value,
the extracted name is the empty string, the classifier returns no event and
nothing is published — the same silent drop as an unrecognized name. -/
theorem icarus_C10_missing_or_nonstring_name (line : Json)
    (h : line.get "name" = none ∨ ((line.get "name").getD Json.null).as_str = none) :
    recordName line = "" ∧ classify line = .ok none ∧ emit_logs line = .ok [] := by
  have hname : recordName line = "" := by
    rcases h with h | h
    · rw [recordName, h]
      rfl
    · rw [recordName, h]
      rfl
  have hmem : recordName line ∉ recognizedNames := by
    rw [hname]; decide
  exact ⟨hname, emit_logs_of_unrecognized line hmem⟩

theorem icarus_C10_witness :
    ((Json.obj [("name", Json.num 3)]).get "name" = none ∨
      (((Json.obj [("name", Json.num 3)]).get "name").getD Json.null).as_str = none) ∧
    recordName (Json.obj [("name", Json.num 3)]) = "" ∧
    classify (Json.obj [("name", Json.num 3)]) = .ok none ∧
    emit_logs (Json.obj [("name", Json.num 3)]) = .ok [] := by
  have h : ((Json.obj [("name", Json.num 3)]).get "name" = none ∨
      (((Json.obj [("name", Json.num 3)]).get "name").getD Json.null).as_str = none) :=
    Or.inr rfl
  exact ⟨h, icarus_C10_missing_or_nonstring_name _ h⟩

/-- C7: a `"Downloading snapshot"` record whose `epoch` field is missing, or
does not parse as an unsigned integer when read as a string, classifies to
`DownloadingShapshot` with epoch 0 (and is published as such). -/
theorem icarus_C7_downloading_epoch_default (line : Json)
    (hname : recordName line = "Downloading snapshot")
    (h : line.get "epoch" = none ∨
      parseU64 ((((line.get "epoch").getD Json.null).as_str).getD "") = none) :
    classify line = .ok (some (.Bootstrap (.DownloadingShapshot 0))) ∧
    emit_logs line =
      .ok [("amaru", serializeAppEvent (.Bootstrap (.DownloadingShapshot 0)))] := by
  have hparse : parseU64 ((((line.get "epoch").getD Json.null).as_str).getD "") = none := by
    rcases h with h | h
    · rw [h]
      rfl
    · exact h
  have hepoch : epochOfLine line = 0 := by
    rw [epochOfLine, hparse]
    rfl
  have hc : classify line = .ok (some (.Bootstrap (.DownloadingShapshot 0))) := by
    simp [classify, classifyNamed, hname, hepoch]
  exact ⟨hc, by simp [emit_logs, hc]⟩

theorem icarus_C7_witness :
    classify (Json.obj [("name", Json.str "Downloading snapshot"), ("epoch", Json.num 42)]) =
      .ok (some (.Bootstrap (.DownloadingShapshot 0))) :=
  (icarus_C7_downloading_epoch_default
    (Json.obj [("name", Json.str "Downloading snapshot"), ("epoch", Json.num 42)])
    rfl (Or.inr rfl)).1

/-- C8: for records named `track_peers.syncing.new_tip` and
`track_peers.caught_up.new_tip` the slot is `slot_from_point` of the `point`
field — the prefix of the string before the first dot, parsed as an unsigned
integer — and the slot defaults to 0 when `point` is absent or not a string;
the spec's concrete example is checked by the witness. -/
theorem icarus_C8_point_slot (line : Json) :
    (recordName line = "track_peers.syncing.new_tip" →
      classify line = .ok (some (.Runtime (.TipSyncing (slot_from_point line "point"))))) ∧
    (recordName line = "track_peers.caught_up.new_tip" →
      classify line = .ok (some (.Runtime (.TipCaughtUp (slot_from_point line "point"))))) ∧
    (((line.get "point").getD Json.null).as_str = none →
      slot_from_point line "point" = 0) := by
  refine ⟨fun h => ?_, fun h => ?_, fun h => ?_⟩
  · simp [classify, classifyNamed, h]
  · simp [classify, classifyNamed, h]
  · rw [slot_from_point, h]
    rfl

theorem icarus_C8_witness :
    classify (Json.obj [("name", Json.str "track_peers.syncing.new_tip"),
        ("point",
          Json.str "70070379.d6fe6439aed8bddc10eec22c1575bf0648e4a76125387d9e985e9a3f8342870d")]) =
      .ok (some (AppEvent.Runtime (RuntimeEvent.TipSyncing 70070379))) :=
  (icarus_C8_point_slot _).1 rfl

/-- C2, counterexample: the published payload of a `Starting` event has the
field list `[kind, tip]` — there is no field named `tip_slot` — and the
payload of an `ImportingSnapshot` event has the field list `[kind, snapshot]`
— there is no field named `snapshot_name`. -/
theorem icarus_C2_counterexample :
    emit_logs (Json.obj [("name", Json.str "starting"),
        ("tip", Json.obj [("slot", Json.num 7)])]) =
      .ok [("amaru", Json.obj [("type", Json.str "runtime"),
        ("payload", Json.obj [("kind", Json.str "starting"), ("tip", Json.num 7)])])] ∧
    (Json.obj [("kind", Json.str "starting"), ("tip", Json.num 7)]).get "tip_slot" = none ∧
    emit_logs (Json.obj [("name", Json.str "Importing snapshot"),
        ("snapshot", Json.str "abc")]) =
      .ok [("amaru", Json.obj [("type", Json.str "bootstrap"),
        ("payload", Json.obj [("kind", Json.str "importing_snapshot"),
          ("snapshot", Json.str "abc")])])] ∧
    (Json.obj [("kind", Json.str "importing_snapshot"),
      ("snapshot", Json.str "abc")]).get "snapshot_name" = none :=
  ⟨rfl, rfl, rfl, rfl⟩

/-- C2, amended: every classified event is emitted once on the single channel
`"amaru"`, with payload `{type: "bootstrap"|"runtime", payload: {kind: <snake
case variant name>, ...fields}}`, where the field names are those of the
source's event structs — in particular `Starting` carries a field named `tip`
and `ImportingSnapshot` carries a field named `snapshot`. -/
theorem icarus_C2_amended (line : Json) (ev : AppEvent)
    (h : classify line = .ok (some ev)) :
    emit_logs line = .ok [("amaru", serializeAppEvent ev)] ∧
    (∃ t k fields, (t = "bootstrap" ∨ t = "runtime") ∧
      serializeAppEvent ev =
        Json.obj [("type", Json.str t),
          ("payload", Json.obj (("kind", Json.str k) :: fields))]) ∧
    (∀ n : Nat, serializeAppEvent (.Runtime (.Starting n)) =
      Json.obj [("type", Json.str "runtime"),
        ("payload", Json.obj [("kind", Json.str "starting"),
          ("tip", Json.num (Int.ofNat n))])]) ∧
    (∀ s : String, serializeAppEvent (.Bootstrap (.ImportingSnapshot s)) =
      Json.obj [("type", Json.str "bootstrap"),
        ("payload", Json.obj [("kind", Json.str "importing_snapshot"),
          ("snapshot", Json.str s)])]) := by
  refine ⟨by simp [emit_logs, h], ?_, fun _ => rfl, fun _ => rfl⟩
  cases ev with
  | Bootstrap b => cases b <;> exact ⟨_, _, _, Or.inl rfl, rfl⟩
  | Runtime r => cases r <;> exact ⟨_, _, _, Or.inr rfl, rfl⟩

theorem icarus_C2_amended_witness :
    emit_logs (Json.obj [("name", Json.str "new.known_snapshots")]) =
      .ok [("amaru", serializeAppEvent (AppEvent.Runtime RuntimeEvent.CreatingState))] :=
  (icarus_C2_amended (Json.obj [("name", Json.str "new.known_snapshots")])
    (AppEvent.Runtime RuntimeEvent.CreatingState) rfl).1
